import Mathlib

/-!
Verification of the BigQuery model-operator adapter
(`src/service_implementations/model/bigquery_base.py`) of the
`mlflow_training_tracking` repository.

The adapter class `ModelOperatorBigQueryLocation` is embedded shallowly:
its mutable instance attributes become an explicit state record, Python
dictionaries become ordered association lists with Python `dict`
insertion/update semantics, and every warehouse job submission is recorded
in an explicit output list of `Job` values instead of being performed.
Fallible operations (`predict`) return `Except PyError`.

`BigQueryLocation` (from `helpers/bigquery_location.py`) and the query
runner of `mixin/bigquery_mixin.py` are not part of the provided source
tree; they are modelled from the specification's collaborator contracts,
as marked on each such definition.
-/

/-- Scalar (or label-list) values that can appear in the adapter's
configuration mapping (`self.kwargs`), mirroring the Python dynamic values
the code distinguishes: `isinstance(value, str)` versus everything else.
`strList` covers `input_label_cols`, a Python list of strings. -/
inductive PyValue where
  | str (s : String)
  | int (n : Int)
  | bool (b : Bool)
  | strList (l : List String)
deriving DecidableEq, Repr

/-- Python `isinstance(value, str)`. -/
def PyValue.isStr : PyValue → Bool
  | .str _ => true
  | _ => false

/-- Python f-string rendering `{value}` of a dynamic value: strings render
verbatim, integers via `str(int)`, booleans as `True`/`False`, and lists of
strings via Python `repr`, e.g. `['y']`. -/
def PyValue.fmt : PyValue → String
  | .str s => s
  | .int n => toString n
  | .bool b => if b then "True" else "False"
  | .strList l => "[" ++ String.intercalate ", " (l.map (fun s => "'" ++ s ++ "'")) ++ "]"

/-- Ordered association list modelling a Python `dict` with string keys
(unique keys, insertion order preserved). -/
abbrev PyDict := List (String × PyValue)

/-- Python `d[k]` lookup (first — and with unique keys, only — match). -/
def dictGet : PyDict → String → Option PyValue
  | [], _ => none
  | (k', v) :: rest, k => if k' == k then some v else dictGet rest k

/-- Python `d[k] = v`: update in place when the key is present (keeping its
insertion-order position), otherwise append the new entry at the end. -/
def dictSet (d : PyDict) (k : String) (v : PyValue) : PyDict :=
  if d.any (fun kv => kv.1 == k) then
    d.map (fun kv => if kv.1 == k then (k, v) else kv)
  else
    d ++ [(k, v)]

/-- Errors the adapter can raise locally, mirroring the Python faults the
code can hit: a missing dictionary key (`KeyError`), indexing an empty
sequence (`IndexError`), indexing a non-sequence (`TypeError`). -/
inductive PyError where
  | keyError
  | indexError
  | typeError
deriving DecidableEq, Repr

/-- Modelled from the spec: the Location Descriptor collaborator
(`helpers/bigquery_location.py`, not in the provided source tree) — "a
value object describing a queryable table/view: its column list, unique
identifier column, fully-qualified table name, optional row ordering,
optional row limit". -/
structure BigQueryLocation where
  columns : List String
  id_column : String
  table : String
  order : Option String := none
  limit : Option Nat := none
deriving DecidableEq, Repr

/-- Modelled from the spec: the optional ordering clause of a rendered
`SELECT` statement. -/
def orderClause : Option String → String
  | some o => " ORDER BY " ++ o
  | none => ""

/-- Modelled from the spec: the optional row-limit clause of a rendered
`SELECT` statement. -/
def limitClause : Option Nat → String
  | some l => " LIMIT " ++ toString l
  | none => ""

/-- Modelled from the spec: `BigQueryLocation.get_select_query` (not in the
provided source tree) — "renders itself as a `SELECT` statement (optionally
including the identifier column)", over the descriptor's columns, table,
optional ordering and optional row limit. -/
def BigQueryLocation.get_select_query (loc : BigQueryLocation)
    (include_id : Bool := false) : String :=
  let cols := if include_id then loc.id_column :: loc.columns else loc.columns
  "SELECT " ++ String.intercalate ", " cols ++ " FROM `" ++ loc.table ++ "`"
    ++ orderClause loc.order ++ limitClause loc.limit

/-- Destination of a materialized query job, as exposed by the job handle
(`query_job.destination` with `.project`, `.dataset_id`, `.table_id`). -/
structure Destination where
  project : String
  dataset_id : String
  table_id : String
deriving DecidableEq, Repr

/-- A job submission to the Query Execution Collaborator: the SQL text and
the job-id tag it was submitted with. -/
structure Job where
  query : String
  job_id_prefix : String
deriving DecidableEq, Repr

/-- One result row of the training-diagnostics query
(`ML.TRAINING_INFO`), with the five named fields the adapter reads. Field
values are kept polymorphic: the adapter only copies them. -/
structure IterationRow (α : Type) where
  iteration : α
  loss : α
  eval_loss : α
  duration_ms : α
  learning_rate : α
deriving DecidableEq, Repr

/-- One Metric record produced by `get_train_metrics`: a metrics mapping
(Python dict, embedded as an ordered association list) plus a step. -/
structure MetricRecord (α : Type) where
  metrics : List (String × α)
  step : α
deriving DecidableEq, Repr

namespace ModelOperatorBigQueryLocation

/-- Instance state of `ModelOperatorBigQueryLocation`: the fields set by
`__init__` (`project`, `dataset`; the client handle is the external
collaborator and carries no data) and by `instantiate_model`. -/
structure State where
  project : String
  dataset : String
  model_id : String
  model_version : String
  model_id_version : String
  sql_model_path : String
  kwargs : PyDict
deriving DecidableEq, Repr

/-- Class attribute `job_id_prefix = 'mlflow_model_'`. -/
def job_id_prefix : String := "mlflow_model_"

/-- Class attribute `create_model_query`, with `.format` substitution of
its four placeholders (sql_model_path, options, train_query, eval_data)
carried out. -/
def create_model_query (sql_model_path options train_query eval_data : String) :
    String :=
  "\nCREATE OR REPLACE MODEL `" ++ sql_model_path ++ "`\nOPTIONS (\n"
    ++ options
    ++ ")\nAS (\n    WITH train_query AS ("
    ++ train_query
    ++ "),\n         eval_data AS ("
    ++ eval_data
    ++ ")\n    SELECT *, false as is_eval FROM train_query UNION ALL \n    SELECT *, true as is_eval FROM eval_data\n)\n"

/-- Class attribute `predict_query`, with `.format` substitution carried
out. -/
def predict_query (id_column target_column sql_model_path pq : String) : String :=
  "\nSELECT " ++ id_column ++ ", predicted_" ++ target_column
    ++ " FROM ML.PREDICT(MODEL `" ++ sql_model_path ++ "`, (" ++ pq ++ "))\n"

/-- Class attribute `train_metric_query`, with `.format` substitution
carried out. -/
def train_metric_query (sql_model_path : String) : String :=
  "\nSELECT * FROM ML.TRAINING_INFO(MODEL `" ++ sql_model_path
    ++ "`) ORDER BY iteration\n    "

/-- Class attribute `train_feature_importance_query` (defined in the
source but invoked by no public operation), with `.format` substitution
carried out. -/
def train_feature_importance_query (sql_model_path : String) : String :=
  "\nSELECT * FROM ML.FEATURE_IMPORTANCE (MODEL `" ++ sql_model_path
    ++ "`)\n    "

/-- Python `str.lower()`, as character-wise lowercasing of the underlying
character list (the keys involved are ASCII identifiers). -/
def strToLower (s : String) : String :=
  ⟨s.data.map Char.toLower⟩

/-- Membership test of `instantiate_model`:
`'data_split_method'.lower() in [key.lower() for key in kwargs.keys()]`. -/
def hasSplitKey (kwargs : PyDict) : Bool :=
  (kwargs.map (fun kv => strToLower kv.1)).contains (strToLower "data_split_method")

/-- Method `instantiate_model(model_id, model_version, **kwargs)` on an
adapter freshly constructed with `__init__(project, dataset)`: stores the
identity fields, derives `model_id_version` and `sql_model_path`, stores
the options mapping and injects the data-split defaults unless a
case-insensitive `data_split_method` key is already present. -/
def instantiate_model (project dataset model_id model_version : String)
    (kwargs : PyDict) : State :=
  { project := project
    dataset := dataset
    model_id := model_id
    model_version := model_version
    model_id_version := model_id ++ "_" ++ model_version
    sql_model_path := project ++ "." ++ dataset ++ "." ++ model_id ++ "_" ++ model_version
    kwargs :=
      if hasSplitKey kwargs then kwargs
      else
        dictSet (dictSet kwargs "data_split_method" (PyValue.str "CUSTOM"))
          "data_split_col" (PyValue.str "is_eval") }

/-- One entry of the options clause rendered by `fit`:
`f'{key}={quote if isinstance(value, str) else ""}{value}{quote if isinstance(value, str) else ""}'`. -/
def renderOption (kv : String × PyValue) : String :=
  kv.1 ++ "=" ++ (if PyValue.isStr kv.2 then "'" else "")
    ++ PyValue.fmt kv.2
    ++ (if PyValue.isStr kv.2 then "'" else "")

/-- The full options clause rendered by `fit`:
`',\n'.join([...])` over the configuration mapping. -/
def renderOptions (kwargs : PyDict) : String :=
  String.intercalate ",\n" (kwargs.map renderOption)

/-- Method `fit(train_x, train_y, eval_x, eval_y)`: stores the label
columns under `input_label_cols`, renders the options clause, builds the
train/eval data locations, formats the create-model statement and submits
it. Returns the updated state and the submitted jobs. -/
def fit (self : State) (train_x train_y eval_x eval_y : BigQueryLocation) :
    State × List Job :=
  let kwargs' := dictSet self.kwargs "input_label_cols" (PyValue.strList train_y.columns)
  let options := renderOptions kwargs'
  let train_data_location : BigQueryLocation :=
    { columns := train_x.columns ++ train_y.columns
      id_column := train_x.id_column
      table := train_x.table
      order := train_x.order
      limit := train_x.limit }
  let eval_data_location : BigQueryLocation :=
    { columns := eval_x.columns ++ eval_y.columns
      id_column := eval_x.id_column
      table := eval_x.table
      order := eval_x.order
      limit := eval_x.limit }
  let q := create_model_query self.sql_model_path options
    (BigQueryLocation.get_select_query train_data_location)
    (BigQueryLocation.get_select_query eval_data_location)
  ({ self with kwargs := kwargs' },
   [{ query := q, job_id_prefix := job_id_prefix }])

/-- Python `value[0]` on a dynamic value, as hit by
`self.kwargs['input_label_cols'][0]`: first element of a list, first
character of a string, a `TypeError` on non-sequences. -/
def pyIndex0 : PyValue → Except PyError String
  | .strList (t :: _) => Except.ok t
  | .strList [] => Except.error PyError.indexError
  | .str s => if s.isEmpty then Except.error PyError.indexError
              else Except.ok (String.singleton s.front)
  | .int _ => Except.error PyError.typeError
  | .bool _ => Except.error PyError.typeError

/-- Method `predict(data)`: reads the target column from the stored
configuration (a missing key raises before any job is submitted), formats
and submits the prediction statement, and wraps the job's materialized
destination (supplied here as the collaborator's answer `dest`) into a new
Location Descriptor. Returns the result and the submitted jobs. -/
def predict (self : State) (data : BigQueryLocation) (dest : Destination) :
    Except PyError BigQueryLocation × List Job :=
  match dictGet self.kwargs "input_label_cols" with
  | none => (Except.error PyError.keyError, [])
  | some v =>
    match pyIndex0 v with
    | Except.error e => (Except.error e, [])
    | Except.ok target_column =>
      let q := predict_query data.id_column target_column self.sql_model_path
        (BigQueryLocation.get_select_query data true)
      let destination_location : BigQueryLocation :=
        { columns := ["predicted_" ++ target_column]
          id_column := data.id_column
          table := dest.project ++ "." ++ dest.dataset_id ++ "." ++ dest.table_id
          order := data.order
          limit := none }
      (Except.ok destination_location,
       [{ query := q, job_id_prefix := job_id_prefix }])

/-- Method `save(folder_path)`: `pass`. Returns the unchanged state and no
submitted jobs. -/
def save (self : State) (folder_path : String) : State × List Job :=
  (self, [])

/-- Method `load(folder_path)`: `pass`. Returns the unchanged state and no
submitted jobs. -/
def load (self : State) (folder_path : String) : State × List Job :=
  (self, [])

/-- Mapping of one training-diagnostics row into a Metric record, as built
in the loop body of `get_train_metrics`. -/
def rowToMetricRecord {α : Type} (row : IterationRow α) : MetricRecord α :=
  { metrics :=
      [("loss", row.loss),
       ("eval_loss", row.eval_loss),
       ("duration_ms", row.duration_ms),
       ("learning_rate", row.learning_rate)]
    step := row.iteration }

/-- Method `get_train_metrics()`: submits the training-diagnostics query
and maps each returned row into a Metric record, in order. The warehouse's
answer rows are supplied as `rows`; the submitted jobs are returned
alongside the result. -/
def get_train_metrics {α : Type} (self : State) (rows : List (IterationRow α)) :
    List (MetricRecord α) × List Job :=
  let q := train_metric_query self.sql_model_path
  (rows.map rowToMetricRecord, [{ query := q, job_id_prefix := job_id_prefix }])

end ModelOperatorBigQueryLocation

/-- Substring containment on strings, via the underlying character
lists. -/
def containsStr (s pat : String) : Prop :=
  ∃ a b : List Char, s.data = a ++ pat.data ++ b

/-- Looking up a key right after setting it yields the set value
(update-in-place branch). -/
theorem dictGet_map_update (d : PyDict) (k : String) (v : PyValue)
    (h : d.any (fun kv => kv.1 == k) = true) :
    dictGet (d.map (fun kv => if kv.1 == k then (k, v) else kv)) k = some v := by
  induction d with
  | nil => simp at h
  | cons hd tl ih =>
    obtain ⟨k1, v1⟩ := hd
    simp only [List.map_cons]
    by_cases hk : (k1 == k) = true
    · rw [if_pos hk]
      simp [dictGet]
    · rw [if_neg hk]
      simp only [List.any_cons, Bool.or_eq_true] at h
      rcases h with h | h
      · exact absurd h hk
      · simp only [dictGet, Bool.not_eq_true] at hk ⊢
        rw [hk]
        simpa using ih h

/-- Looking up a key right after appending it yields the appended value
when the key was absent. -/
theorem dictGet_append_new (d : PyDict) (k : String) (v : PyValue)
    (h : d.any (fun kv => kv.1 == k) = false) :
    dictGet (d ++ [(k, v)]) k = some v := by
  induction d with
  | nil => simp [dictGet]
  | cons hd tl ih =>
    obtain ⟨k1, v1⟩ := hd
    simp only [List.any_cons, Bool.or_eq_false_iff] at h
    simp only [List.cons_append, dictGet]
    rw [h.1]
    simpa using ih h.2

/-- After `dictSet d k v`, looking up `k` yields `v`. -/
theorem dictGet_dictSet_self (d : PyDict) (k : String) (v : PyValue) :
    dictGet (dictSet d k v) k = some v := by
  unfold dictSet
  by_cases h : d.any (fun kv => kv.1 == k)
  · simp only [h, if_true]
    exact dictGet_map_update d k v h
  · simp only [Bool.not_eq_true] at h
    simp only [h, if_false, Bool.false_eq_true]
    exact dictGet_append_new d k v h

/-- Updating a different key in place leaves a lookup unchanged. -/
theorem dictGet_map_ne (d : PyDict) (k k' : String) (v : PyValue)
    (hne : (k' == k) = false) :
    dictGet (d.map (fun kv => if kv.1 == k' then (k', v) else kv)) k = dictGet d k := by
  induction d with
  | nil => simp [dictGet]
  | cons hd tl ih =>
    obtain ⟨k1, v1⟩ := hd
    simp only [List.map_cons]
    by_cases hk : (k1 == k') = true
    · have hd1 : k1 = k' := eq_of_beq hk
      rw [if_pos hk]
      simp only [dictGet, hne, hd1]
      simpa using ih
    · rw [if_neg hk]
      simp only [dictGet]
      rw [ih]

/-- Appending an entry for a different key leaves a lookup unchanged. -/
theorem dictGet_append_ne (d : PyDict) (k k' : String) (v : PyValue)
    (hne : (k' == k) = false) :
    dictGet (d ++ [(k', v)]) k = dictGet d k := by
  induction d with
  | nil => simp [dictGet, hne]
  | cons hd tl ih =>
    obtain ⟨k1, v1⟩ := hd
    simp only [List.cons_append, dictGet, List.append_eq]
    rw [ih]

/-- After `dictSet d k' v`, looking up a different key `k` is unchanged. -/
theorem dictGet_dictSet_ne (d : PyDict) (k k' : String) (v : PyValue)
    (hne : (k' == k) = false) :
    dictGet (dictSet d k' v) k = dictGet d k := by
  unfold dictSet
  by_cases h : d.any (fun kv => kv.1 == k')
  · simp only [h, if_true]
    exact dictGet_map_ne d k k' v hne
  · simp only [Bool.not_eq_true] at h
    simp only [h, if_false, Bool.false_eq_true]
    exact dictGet_append_ne d k k' v hne

open ModelOperatorBigQueryLocation

/-- Claim C2: for every options mapping passed to `instantiate_model` that
contains no key equal to `data_split_method` under case-insensitive
comparison, the stored configuration afterwards maps `data_split_method`
to `CUSTOM` and `data_split_col` to `is_eval`. -/
theorem claim_C2 (project dataset model_id model_version : String) (kwargs : PyDict)
    (h : hasSplitKey kwargs = false) :
    dictGet (instantiate_model project dataset model_id model_version kwargs).kwargs
        "data_split_method" = some (PyValue.str "CUSTOM")
    ∧ dictGet (instantiate_model project dataset model_id model_version kwargs).kwargs
        "data_split_col" = some (PyValue.str "is_eval") := by
  simp only [instantiate_model, h, if_false, Bool.false_eq_true]
  constructor
  · rw [dictGet_dictSet_ne _ _ _ _ (by decide)]
    exact dictGet_dictSet_self _ _ _
  · exact dictGet_dictSet_self _ _ _

/-- Witness for C2 at a concrete options mapping lacking any casing of
`data_split_method`. -/
theorem claim_C2_witness :
    dictGet (instantiate_model "p" "d" "m" "1"
        [("model_type", PyValue.str "boosted_tree")]).kwargs "data_split_method"
      = some (PyValue.str "CUSTOM")
    ∧ dictGet (instantiate_model "p" "d" "m" "1"
        [("model_type", PyValue.str "boosted_tree")]).kwargs "data_split_col"
      = some (PyValue.str "is_eval") :=
  claim_C2 "p" "d" "m" "1" [("model_type", PyValue.str "boosted_tree")] (by decide)

/-- Claim C3: for every options mapping containing some casing of
`data_split_method`, `instantiate_model` stores the mapping unchanged: no
default split method or split column is injected. -/
theorem claim_C3 (project dataset model_id model_version : String) (kwargs : PyDict)
    (h : hasSplitKey kwargs = true) :
    (instantiate_model project dataset model_id model_version kwargs).kwargs = kwargs := by
  simp [instantiate_model, h]

/-- Witness for C3 at a concrete options mapping carrying an upper-case
`DATA_SPLIT_METHOD` key. -/
theorem claim_C3_witness :
    (instantiate_model "p" "d" "m" "1"
        [("DATA_SPLIT_METHOD", PyValue.str "NO_SPLIT")]).kwargs
      = [("DATA_SPLIT_METHOD", PyValue.str "NO_SPLIT")] :=
  claim_C3 "p" "d" "m" "1" [("DATA_SPLIT_METHOD", PyValue.str "NO_SPLIT")] (by decide)

/-- Claim C8: `save` and `load` raise nothing, leave every field of the
adapter state unchanged and submit no warehouse job. -/
theorem claim_C8 (self : ModelOperatorBigQueryLocation.State) (path : String) :
    save self path = (self, ([] : List Job))
    ∧ load self path = (self, ([] : List Job)) :=
  ⟨rfl, rfl⟩

/-- Claim C4: in the options clause `fit` renders, string values appear as
`key='value'` with single quotes, non-string values (numbers, booleans) as
`key=value` without quotes, and entries are joined with a comma and
newline. -/
theorem claim_C4 (kwargs : PyDict) (k s : String) (n : Int) (b : Bool) (v : PyValue) :
    renderOptions kwargs = String.intercalate ",\n" (kwargs.map renderOption)
    ∧ renderOption (k, PyValue.str s) = k ++ "='" ++ s ++ "'"
    ∧ renderOption (k, PyValue.int n) = k ++ "=" ++ toString n
    ∧ renderOption (k, PyValue.bool b) = k ++ "=" ++ (if b then "True" else "False")
    ∧ (PyValue.isStr v = false → renderOption (k, v) = k ++ "=" ++ PyValue.fmt v) := by
  refine ⟨rfl, ?_, ?_, ?_, ?_⟩
  · show k ++ "=" ++ "'" ++ s ++ "'" = k ++ "='" ++ s ++ "'"
    rw [show ("='" : String) = "=" ++ "'" from rfl, String.append_assoc k]
  · show k ++ "=" ++ "" ++ toString n ++ "" = k ++ "=" ++ toString n
    rw [String.append_empty, String.append_empty]
  · show k ++ "=" ++ "" ++ (if b then "True" else "False") ++ ""
        = k ++ "=" ++ (if b then "True" else "False")
    rw [String.append_empty, String.append_empty]
  · intro h
    simp [renderOption, h, String.append_empty]

/-- Witness for C4: a numeric option renders unquoted. -/
theorem claim_C4_witness :
    renderOption ("max_iterations", PyValue.int 50)
      = "max_iterations" ++ "=" ++ PyValue.fmt (PyValue.int 50) :=
  (claim_C4 [] "max_iterations" "x" 50 true (PyValue.int 50)).2.2.2.2 rfl

/-- Claim C5: calling `predict` while the stored configuration has no
`input_label_cols` key (no `fit` has run) yields the local missing-key
fault, and no job is submitted to the warehouse. -/
theorem claim_C5 (self : ModelOperatorBigQueryLocation.State) (data : BigQueryLocation)
    (dest : Destination)
    (h : dictGet self.kwargs "input_label_cols" = none) :
    predict self data dest = (Except.error PyError.keyError, ([] : List Job)) := by
  simp [predict, h]

/-- Witness for C5 on a freshly instantiated adapter that never ran
`fit`. -/
theorem claim_C5_witness :
    predict (instantiate_model "p" "d" "m" "1" [])
        ⟨["a"], "id", "p.d.x", none, none⟩ ⟨"jp", "jd", "jt"⟩
      = (Except.error PyError.keyError, ([] : List Job)) :=
  claim_C5 _ _ _ (by decide)

/-- Claim C6: after `fit` has run, `predict data` returns a Location
Descriptor with columns `[predicted_<target>]` for the first stored label
column, `data`'s identifier column, the job's materialized destination
rendered `project.dataset.table`, and `data`'s ordering. -/
theorem claim_C6 (self : ModelOperatorBigQueryLocation.State)
    (train_x train_y eval_x eval_y data : BigQueryLocation) (dest : Destination)
    (t : String) (rest : List String) (hcols : train_y.columns = t :: rest) :
    (predict (fit self train_x train_y eval_x eval_y).1 data dest).1 =
      Except.ok { columns := ["predicted_" ++ t], id_column := data.id_column,
                  table := dest.project ++ "." ++ dest.dataset_id ++ "." ++ dest.table_id,
                  order := data.order, limit := none } := by
  have hk : dictGet (fit self train_x train_y eval_x eval_y).1.kwargs "input_label_cols"
      = some (PyValue.strList (t :: rest)) := by
    simp [fit, hcols, dictGet_dictSet_self]
  simp [predict, hk, pyIndex0]

/-- Witness for C6 at a concrete fitted adapter and prediction input. -/
theorem claim_C6_witness :
    (predict (fit (instantiate_model "p" "d" "m" "1" [])
          ⟨["a", "b"], "id", "p.d.tx", none, none⟩
          ⟨["y"], "id", "p.d.ty", none, none⟩
          ⟨["a", "b"], "id", "p.d.ex", none, none⟩
          ⟨["y"], "id", "p.d.ey", none, none⟩).1
        ⟨["a", "b"], "id", "p.d.new", some "id", none⟩ ⟨"jp", "jd", "jt"⟩).1
      = Except.ok { columns := ["predicted_y"], id_column := "id",
                    table := "jp.jd.jt", order := some "id", limit := none } := by
  have h := claim_C6 (instantiate_model "p" "d" "m" "1" [])
      ⟨["a", "b"], "id", "p.d.tx", none, none⟩ ⟨["y"], "id", "p.d.ty", none, none⟩
      ⟨["a", "b"], "id", "p.d.ex", none, none⟩ ⟨["y"], "id", "p.d.ey", none, none⟩
      ⟨["a", "b"], "id", "p.d.new", some "id", none⟩ ⟨"jp", "jd", "jt"⟩ "y" [] rfl
  exact h

/-- Claim C7: `get_train_metrics` maps `n` warehouse iteration rows to
exactly `n` Metric records in the same order, the `k`-th having `step`
equal to the `k`-th row's `iteration` and a metrics mapping of exactly the
four keys `loss`, `eval_loss`, `duration_ms`, `learning_rate` copied from
that row. -/
theorem claim_C7 {α : Type} (self : ModelOperatorBigQueryLocation.State)
    (rows : List (IterationRow α)) :
    ((get_train_metrics self rows).1).length = rows.length
    ∧ ∀ (k : Nat) (row : IterationRow α), rows[k]? = some row →
        ((get_train_metrics self rows).1)[k]? =
          some { metrics := [("loss", row.loss), ("eval_loss", row.eval_loss),
                             ("duration_ms", row.duration_ms),
                             ("learning_rate", row.learning_rate)],
                 step := row.iteration } := by
  constructor
  · simp [get_train_metrics]
  · intro k row h
    simp [get_train_metrics, List.getElem?_map, h, rowToMetricRecord]

/-- Witness for C7 on a two-row warehouse response, checking the second
record. -/
theorem claim_C7_witness :
    ((get_train_metrics (instantiate_model "p" "d" "m" "1" [])
        ([⟨1, 10, 20, 30, 40⟩, ⟨2, 11, 21, 31, 41⟩] : List (IterationRow Int))).1)[1]?
      = some { metrics := [("loss", (11 : Int)), ("eval_loss", 21),
                           ("duration_ms", 31), ("learning_rate", 41)],
               step := 2 } :=
  (claim_C7 (instantiate_model "p" "d" "m" "1" [])
      ([⟨1, 10, 20, 30, 40⟩, ⟨2, 11, 21, 31, 41⟩] : List (IterationRow Int))).2 1
    ⟨2, 11, 21, 31, 41⟩ rfl

/-- Claim C9: every job submitted by `fit`, `predict` and
`get_train_metrics` carries the fixed job-id tag `mlflow_model_`. -/
theorem claim_C9 {α : Type} (self : ModelOperatorBigQueryLocation.State)
    (train_x train_y eval_x eval_y data : BigQueryLocation) (dest : Destination)
    (rows : List (IterationRow α)) :
    ((fit self train_x train_y eval_x eval_y).2).all
        (fun j => Job.job_id_prefix j == "mlflow_model_") = true
    ∧ ((predict self data dest).2).all
        (fun j => Job.job_id_prefix j == "mlflow_model_") = true
    ∧ ((get_train_metrics self rows).2).all
        (fun j => Job.job_id_prefix j == "mlflow_model_") = true := by
  refine ⟨rfl, ?_, rfl⟩
  unfold predict
  cases hv : dictGet self.kwargs "input_label_cols" with
  | none => rfl
  | some v =>
    cases hp : pyIndex0 v with
    | error e => simp [hp]
    | ok t => simp [hp, job_id_prefix]

/-- Substring containment follows from an explicit three-way
decomposition. -/
theorem containsStr_intro (a b s pat : String) (h : s = a ++ pat ++ b) :
    containsStr s pat :=
  ⟨a.data, b.data, by rw [h]; simp [String.data_append]⟩

/-- A rendered select query splits as a `SELECT <columns> FROM` head
followed by some tail. -/
theorem gsq_split (loc : BigQueryLocation) :
    ∃ t : String, BigQueryLocation.get_select_query loc
      = "SELECT " ++ String.intercalate ", " loc.columns ++ " FROM" ++ t := by
  refine ⟨" `" ++ loc.table ++ "`" ++ orderClause loc.order ++ limitClause loc.limit, ?_⟩
  simp only [BigQueryLocation.get_select_query, Bool.false_eq_true, if_false]
  simp only [String.append_assoc]
  rw [show ∀ x : String, " FROM" ++ (" `" ++ x) = " FROM `" ++ x
      from fun x => by
        rw [← String.append_assoc]
        exact congrArg (· ++ x) (show " FROM" ++ " `" = " FROM `" from rfl)]

/-- Claim C1: `fit` stores `train_y`'s columns under `input_label_cols`,
and the single create-or-replace-model statement it submits contains a
training sub-query selecting the train feature and label columns, an
evaluation sub-query selecting the eval feature and label columns, and the
`is_eval=false` / `is_eval=true` tagging combined with `UNION ALL`. -/
theorem claim_C1 (self : ModelOperatorBigQueryLocation.State)
    (train_x train_y eval_x eval_y : BigQueryLocation) :
    dictGet (fit self train_x train_y eval_x eval_y).1.kwargs "input_label_cols"
        = some (PyValue.strList train_y.columns)
    ∧ ∃ j, (fit self train_x train_y eval_x eval_y).2 = [j]
      ∧ containsStr (Job.query j)
          ("WITH train_query AS (SELECT "
            ++ String.intercalate ", " (train_x.columns ++ train_y.columns) ++ " FROM")
      ∧ containsStr (Job.query j)
          ("eval_data AS (SELECT "
            ++ String.intercalate ", " (eval_x.columns ++ eval_y.columns) ++ " FROM")
      ∧ containsStr (Job.query j)
          "SELECT *, false as is_eval FROM train_query UNION ALL \n    SELECT *, true as is_eval FROM eval_data" := by
  constructor
  · simp [fit, dictGet_dictSet_self]
  · obtain ⟨t1, ht1⟩ := gsq_split
      { columns := train_x.columns ++ train_y.columns, id_column := train_x.id_column,
        table := train_x.table, order := train_x.order, limit := train_x.limit }
    obtain ⟨t2, ht2⟩ := gsq_split
      { columns := eval_x.columns ++ eval_y.columns, id_column := eval_x.id_column,
        table := eval_x.table, order := eval_x.order, limit := eval_x.limit }
    refine ⟨⟨create_model_query self.sql_model_path
        (renderOptions (dictSet self.kwargs "input_label_cols"
          (PyValue.strList train_y.columns)))
        (BigQueryLocation.get_select_query
          { columns := train_x.columns ++ train_y.columns, id_column := train_x.id_column,
            table := train_x.table, order := train_x.order, limit := train_x.limit })
        (BigQueryLocation.get_select_query
          { columns := eval_x.columns ++ eval_y.columns, id_column := eval_x.id_column,
            table := eval_x.table, order := eval_x.order, limit := eval_x.limit }),
      job_id_prefix⟩, rfl, ?_, ?_, ?_⟩
    · refine containsStr_intro
        ("\nCREATE OR REPLACE MODEL `" ++ self.sql_model_path ++ "`\nOPTIONS (\n"
          ++ renderOptions (dictSet self.kwargs "input_label_cols"
              (PyValue.strList train_y.columns))
          ++ ")\nAS (\n    ")
        (t1 ++ "),\n         eval_data AS ("
          ++ BigQueryLocation.get_select_query
              { columns := eval_x.columns ++ eval_y.columns, id_column := eval_x.id_column,
                table := eval_x.table, order := eval_x.order, limit := eval_x.limit }
          ++ ")\n    SELECT *, false as is_eval FROM train_query UNION ALL \n    SELECT *, true as is_eval FROM eval_data\n)\n")
        _ _ ?_
      rw [ht1]
      simp only [create_model_query]
      simp only [String.append_assoc]
      rw [show ∀ x : String, ")\nAS (\n    " ++ ("WITH train_query AS (SELECT " ++ x)
            = ")\nAS (\n    WITH train_query AS (" ++ ("SELECT " ++ x)
          from fun x => by
            rw [← String.append_assoc, ← String.append_assoc]
            exact congrArg (· ++ x)
              (show ")\nAS (\n    " ++ "WITH train_query AS (SELECT "
                  = ")\nAS (\n    WITH train_query AS (" ++ "SELECT " from rfl)]
    · refine containsStr_intro
        ("\nCREATE OR REPLACE MODEL `" ++ self.sql_model_path ++ "`\nOPTIONS (\n"
          ++ renderOptions (dictSet self.kwargs "input_label_cols"
              (PyValue.strList train_y.columns))
          ++ ")\nAS (\n    WITH train_query AS ("
          ++ BigQueryLocation.get_select_query
              { columns := train_x.columns ++ train_y.columns, id_column := train_x.id_column,
                table := train_x.table, order := train_x.order, limit := train_x.limit }
          ++ "),\n         ")
        (t2 ++ ")\n    SELECT *, false as is_eval FROM train_query UNION ALL \n    SELECT *, true as is_eval FROM eval_data\n)\n")
        _ _ ?_
      rw [ht2]
      simp only [create_model_query]
      simp only [String.append_assoc]
      rw [show ∀ x : String, "),\n         " ++ ("eval_data AS (SELECT " ++ x)
            = "),\n         eval_data AS (" ++ ("SELECT " ++ x)
          from fun x => by
            rw [← String.append_assoc, ← String.append_assoc]
            exact congrArg (· ++ x)
              (show "),\n         " ++ "eval_data AS (SELECT "
                  = "),\n         eval_data AS (" ++ "SELECT " from rfl)]
    · refine containsStr_intro
        ("\nCREATE OR REPLACE MODEL `" ++ self.sql_model_path ++ "`\nOPTIONS (\n"
          ++ renderOptions (dictSet self.kwargs "input_label_cols"
              (PyValue.strList train_y.columns))
          ++ ")\nAS (\n    WITH train_query AS ("
          ++ BigQueryLocation.get_select_query
              { columns := train_x.columns ++ train_y.columns, id_column := train_x.id_column,
                table := train_x.table, order := train_x.order, limit := train_x.limit }
          ++ "),\n         eval_data AS ("
          ++ BigQueryLocation.get_select_query
              { columns := eval_x.columns ++ eval_y.columns, id_column := eval_x.id_column,
                table := eval_x.table, order := eval_x.order, limit := eval_x.limit }
          ++ ")\n    ")
        "\n)\n" _ _ ?_
      simp only [create_model_query]
      simp only [String.append_assoc]
      rw [show ")\n    "
              ++ ("SELECT *, false as is_eval FROM train_query UNION ALL \n    SELECT *, true as is_eval FROM eval_data"
                ++ "\n)\n")
            = (")\n    SELECT *, false as is_eval FROM train_query UNION ALL \n    SELECT *, true as is_eval FROM eval_data\n)\n" : String)
          from rfl]

/-- Claim C10: the training sub-query's identifier column, table, ordering
and row limit come only from `train_x`, and the evaluation sub-query's
only from `eval_x`: replacing `train_y` and `eval_y` by label descriptors
with the same column lists but different identifier columns, tables,
orderings or limits leaves `fit`'s result — state and generated statement —
unchanged. -/
theorem claim_C10 (self : ModelOperatorBigQueryLocation.State)
    (train_x train_y train_y2 eval_x eval_y eval_y2 : BigQueryLocation)
    (h1 : train_y.columns = train_y2.columns)
    (h2 : eval_y.columns = eval_y2.columns) :
    fit self train_x train_y eval_x eval_y = fit self train_x train_y2 eval_x eval_y2 := by
  simp [fit, h1, h2]

/-- Witness for C10: label descriptors differing in identifier column,
table, ordering and limit produce the same `fit` result. -/
theorem claim_C10_witness :
    fit (instantiate_model "p" "d" "m" "1" []) ⟨["a"], "id", "p.d.tx", none, none⟩
        ⟨["y"], "idy", "p.d.ty", some "y", some 5⟩ ⟨["a"], "id", "p.d.ex", none, none⟩
        ⟨["y"], "idz", "p.d.ez", some "z", some 7⟩
      = fit (instantiate_model "p" "d" "m" "1" []) ⟨["a"], "id", "p.d.tx", none, none⟩
        ⟨["y"], "other", "p.d.other", none, none⟩ ⟨["a"], "id", "p.d.ex", none, none⟩
        ⟨["y"], "w", "p.d.w", none, some 1⟩ :=
  claim_C10 _ _ _ _ _ _ _ rfl rfl
